import Mathlib

/-!
Shallow embedding of the balance-ledger and game-settlement core of
`server.js` (the jada5 platform): the HTTP handlers for deposit, withdrawal
(with its deferred settlement callback), ticket purchase, wheel spin and the
transaction listing, together with a small-step trace semantics over them.

Modelling conventions, each justified by the source:
* Monetary amounts and balances are `Int` (the handlers do integer-valued
  arithmetic on JS numbers; no claim here depends on float behaviour).
* `Math.random`-derived tokens (transaction-id suffixes, ticket codes) and the
  drawn wheel index are oracle parameters of the handlers.
* MongoDB's unique index on `transactionId` / `ticketCode` makes a colliding
  `save()` throw; `saveTxn` / the mint loop return failure on a duplicate and
  never overwrite.  A thrown save lands in the handler's `catch`, which
  answers HTTP 500; state already persisted before the throw stays persisted.
* The settlement `setTimeout` callback closes over the mongoose `user`
  document fetched at request time, so `user.balance -= amount; user.save()`
  persists (request-time balance) - amount.  A `PendingSettlement` entry
  records that snapshot; `settleH` is the callback firing.
* Record-store failures for the purchase path (claim about rollback) are an
  oracle `failAt : Nat → Bool`: index 0 is the debiting `user.save()`, 1 the
  `transaction.save()`, `2 + i` the save of the i-th ticket.
-/

namespace Jada

inductive TxnType where
  | deposit
  | withdrawal
  | gamePurchase
  | prizeWon
deriving DecidableEq

inductive TxnStatus where
  | pending
  | completed
  | failed
deriving DecidableEq

structure Txn where
  userId : Nat
  ttype : TxnType
  status : TxnStatus
  amount : Int
  transactionId : String
  description : String
  createdAt : Nat
deriving DecidableEq

inductive GameKind where
  | wheel
  | draw
deriving DecidableEq

structure Prize where
  position : Int
  amount : Int
deriving DecidableEq

structure Game where
  id : Nat
  name : String
  kind : GameKind
  price : Int
  prizePool : Int
  durationDays : Int
  spinsPerDay : Int
  prizes : List Prize
  active : Bool
deriving DecidableEq

inductive TicketStatus where
  | active
  | won
  | lost
deriving DecidableEq

structure Ticket where
  userId : Nat
  gameId : Nat
  ticketCode : String
  purchaseDate : Nat
  drawDate : Int
  status : TicketStatus
  prizeWon : Int
deriving DecidableEq

structure Usr where
  id : Nat
  balance : Int
deriving DecidableEq

/-- A scheduled `setTimeout` settlement: the closure captures the amount, the
phone, the transaction document and the user document as fetched at request
time (whose balance is `snapBalance`). -/
structure PendingSettlement where
  userId : Nat
  amount : Int
  snapBalance : Int
  txId : String
  phone : String
deriving DecidableEq

structure St where
  users : List Usr
  games : List Game
  txns : List Txn
  tickets : List Ticket
  pending : List PendingSettlement
  clock : Nat
deriving DecidableEq

/-- Domain-visible failures: `notFound` is HTTP 404, `insufficientBalance` the
400 "Insufficient balance" answer, `internalError` the catch-all 500. -/
inductive Ferr where
  | notFound (what : String)
  | insufficientBalance
  | internalError
deriving DecidableEq

instance {ε α : Type} [DecidableEq ε] [DecidableEq α] : DecidableEq (Except ε α) := fun x y =>
  match x, y with
  | .error a, .error b =>
    if h : a = b then .isTrue (by rw [h]) else .isFalse (by intro hc; cases hc; exact h rfl)
  | .error _, .ok _ => .isFalse (by intro hc; cases hc)
  | .ok _, .error _ => .isFalse (by intro hc; cases hc)
  | .ok a, .ok b =>
    if h : a = b then .isTrue (by rw [h]) else .isFalse (by intro hc; cases hc; exact h rfl)

def findUser (users : List Usr) (uid : Nat) : Option Usr :=
  users.find? (fun u => decide (u.id = uid))

/-- `user.save()` after assigning `user.balance`: mongoose `$set`s the
modified path on the document with this `_id`. -/
def setBalance (users : List Usr) (uid : Nat) (b : Int) : List Usr :=
  users.map (fun u => if u.id = uid then { u with balance := b } else u)

def findGame (games : List Game) (gid : Nat) : Option Game :=
  games.find? (fun g => decide (g.id = gid))

/-- `transaction.save()` for a new document: the unique index on
`transactionId` makes a colliding insert throw (`none`); otherwise the record
is appended and the logical clock advances. -/
def saveTxn (st : St) (t : Txn) : Option St :=
  if st.txns.any (fun t0 => decide (t0.transactionId = t.transactionId)) then none
  else some { st with txns := st.txns ++ [t], clock := st.clock + 1 }

/-- POST /api/deposit: no amount validation; balance is updated and saved
before the transaction record is written. -/
def depositH (st : St) (uid : Nat) (amount : Int) (transactionId : String) :
    Except Ferr Int × St :=
  match findUser st.users uid with
  | none => (.error (.notFound "User not found"), st)
  | some user =>
    let st1 : St := { st with users := setBalance st.users uid (user.balance + amount) }
    let t : Txn := { userId := uid, ttype := .deposit, status := .completed,
                     amount := amount, transactionId := transactionId,
                     description := "Deposit via Pesapal", createdAt := st1.clock }
    match saveTxn st1 t with
    | none => (.error .internalError, st1)
    | some st2 => (.ok (user.balance + amount), st2)

/-- POST /api/withdraw: request-time balance check, `pending` transaction,
then a settlement is scheduled (not run); the response carries the
transaction id immediately. -/
def withdrawH (st : St) (uid : Nat) (amount : Int) (phone : String) (token : String) :
    Except Ferr String × St :=
  match findUser st.users uid with
  | none => (.error (.notFound "User not found"), st)
  | some user =>
    if user.balance < amount then (.error .insufficientBalance, st)
    else
      let txid := "wd_" ++ token
      let t : Txn := { userId := uid, ttype := .withdrawal, status := .pending,
                       amount := amount, transactionId := txid,
                       description := "Withdrawal to " ++ phone, createdAt := st.clock }
      match saveTxn st t with
      | none => (.error .internalError, st)
      | some st1 =>
        (.ok txid,
         { st1 with pending := st1.pending ++
             [{ userId := uid, amount := amount, snapBalance := user.balance,
                txId := txid, phone := phone }] })

/-- The `setTimeout` settlement callback firing for `pending[j]`: it marks the
transaction `completed` and persists `snapBalance - amount` as the user's
balance — no re-validation of the current balance happens anywhere. -/
def settleH (st : St) (j : Nat) : St :=
  match st.pending[j]? with
  | none => st
  | some p =>
    let txns1 := st.txns.map
      (fun t => if t.transactionId = p.txId then { t with status := TxnStatus.completed } else t)
    { st with txns := txns1,
              users := setBalance st.users p.userId (p.snapBalance - p.amount),
              pending := st.pending.eraseIdx j }

/-- The ticket-minting `for` loop: each iteration saves one ticket (save index
`2 + i`); a thrown save (oracle, or duplicate `ticketCode`) aborts the loop
with the tickets saved so far kept. -/
def mintLoop (uid gid : Nat) (purchaseDate : Nat) (drawDate : Int)
    (codes : List String) (failAt : Nat → Bool) :
    Nat → Nat → List Ticket → List Ticket × Bool
  | 0, _, ts => (ts, true)
  | n + 1, i, ts =>
    if failAt (2 + i) then (ts, false)
    else
      let code := "T" ++ codes.getD i ""
      if ts.any (fun tk => decide (tk.ticketCode = code)) then (ts, false)
      else
        mintLoop uid gid purchaseDate drawDate codes failAt n (i + 1)
          (ts ++ [{ userId := uid, gameId := gid, ticketCode := code,
                    purchaseDate := purchaseDate, drawDate := drawDate,
                    status := .active, prizeWon := 0 }])

/-- POST /api/tickets/purchase: no quantity validation (the body value
defaults to 1 but is otherwise taken as-is) and no check of `game.active`;
debit, transaction record and ticket saves run in sequence with no rollback
on a later failure. -/
def purchaseH (st : St) (uid gid : Nat) (quantity : Int) (token : String)
    (codes : List String) (failAt : Nat → Bool) :
    Except Ferr (List Ticket × Int) × St :=
  match findUser st.users uid with
  | none => (.error (.notFound "User not found"), st)
  | some user =>
    match findGame st.games gid with
    | none => (.error (.notFound "Game not found"), st)
    | some game =>
      let totalCost := game.price * quantity
      if user.balance < totalCost then (.error .insufficientBalance, st)
      else if failAt 0 then (.error .internalError, st)
      else
        let newBal := user.balance - totalCost
        let st1 : St := { st with users := setBalance st.users uid newBal }
        let t : Txn := { userId := uid, ttype := .gamePurchase, status := .completed,
                         amount := totalCost, transactionId := "tick_" ++ token,
                         description := "Purchased " ++ toString quantity ++
                           " ticket(s) for " ++ game.name,
                         createdAt := st1.clock }
        if failAt 1 then (.error .internalError, st1)
        else
          match saveTxn st1 t with
          | none => (.error .internalError, st1)
          | some st2 =>
            let drawDate : Int := (st.clock : Int) + game.durationDays
            match mintLoop uid gid st.clock drawDate codes failAt quantity.toNat 0 st2.tickets with
            | (ts, false) => (.error .internalError, { st2 with tickets := ts })
            | (ts, true) =>
              (.ok (ts.drop st2.tickets.length, newBal), { st2 with tickets := ts })

structure SpinResp where
  prize : Int
  position : Int
  balance : Int
deriving DecidableEq

/-- POST /api/games/spin: no check of the game's kind or active flag;
`idx` is `Math.floor(Math.random() * prizes.length)`.  When the prize list is
empty that index is 0 and `prizes[0]` is undefined, so reading `.amount`
throws and the catch answers 500 — modelled by the `none` branch. -/
def spinH (st : St) (uid gid : Nat) (idx : Nat) (token : String) :
    Except Ferr SpinResp × St :=
  match findUser st.users uid with
  | none => (.error (.notFound "User not found"), st)
  | some user =>
    match findGame st.games gid with
    | none => (.error (.notFound "Game not found"), st)
    | some game =>
      match game.prizes[idx]? with
      | none => (.error .internalError, st)
      | some prize =>
        if prize.amount > 0 then
          let newBal := user.balance + prize.amount
          let st1 : St := { st with users := setBalance st.users uid newBal }
          let t : Txn := { userId := uid, ttype := .prizeWon, status := .completed,
                           amount := prize.amount, transactionId := "win_" ++ token,
                           description := "Won prize from " ++ game.name ++
                             " (Position: " ++ toString prize.position ++ ")",
                           createdAt := st1.clock }
          match saveTxn st1 t with
          | none => (.error .internalError, st1)
          | some st2 =>
            (.ok { prize := prize.amount, position := prize.position, balance := newBal }, st2)
        else
          (.ok { prize := prize.amount, position := prize.position, balance := user.balance }, st)

/-- Newest first: `a` precedes `b` when `a` was created no earlier. -/
def txnNewerEq (a b : Txn) : Prop := b.createdAt ≤ a.createdAt

instance : DecidableRel txnNewerEq := fun a b => Nat.decLe b.createdAt a.createdAt

instance : IsTotal Txn txnNewerEq := ⟨fun a b => le_total b.createdAt a.createdAt⟩

instance : IsTrans Txn txnNewerEq := ⟨fun _ _ _ hab hbc => le_trans hbc hab⟩

/-- GET /api/transactions: filter by user, sort by `createdAt` descending,
limit 50; purely a read. -/
def getTransactionsH (st : St) (uid : Nat) : List Txn × St :=
  (((st.txns.filter (fun t => decide (t.userId = uid))).insertionSort txnNewerEq).take 50, st)

/-- One public operation, with all random choices made explicit. -/
inductive Op where
  | deposit (uid : Nat) (amount : Int) (transactionId : String)
  | withdraw (uid : Nat) (amount : Int) (phone : String) (token : String)
  | settle (j : Nat)
  | purchase (uid gid : Nat) (quantity : Int) (token : String)
      (codes : List String) (failAt : Nat → Bool)
  | spin (uid gid : Nat) (idx : Nat) (token : String)

def applyOp (st : St) : Op → St
  | .deposit uid a tid => (depositH st uid a tid).2
  | .withdraw uid a ph tok => (withdrawH st uid a ph tok).2
  | .settle j => settleH st j
  | .purchase uid gid q tok codes f => (purchaseH st uid gid q tok codes f).2
  | .spin uid gid idx tok => (spinH st uid gid idx tok).2

def runOps (st : St) (ops : List Op) : St := ops.foldl applyOp st

/-- The state right after registration of one user (balance 0) with a given
game catalog. -/
def initSt (uid : Nat) (games : List Game) : St :=
  { users := [{ id := uid, balance := 0 }], games := games,
    txns := [], tickets := [], pending := [], clock := 0 }

def balanceOf (st : St) (uid : Nat) : Int :=
  ((findUser st.users uid).map Usr.balance).getD 0

def isCredit (t : TxnType) : Bool :=
  match t with
  | .deposit => true
  | .prizeWon => true
  | _ => false

def isDebit (t : TxnType) : Bool :=
  match t with
  | .withdrawal => true
  | .gamePurchase => true
  | _ => false

/-- Sum of completed credit amounts minus sum of completed debit amounts for
one user. -/
def ledgerBalance (st : St) (uid : Nat) : Int :=
  ((st.txns.filter (fun t =>
      decide (t.userId = uid ∧ t.status = TxnStatus.completed ∧ isCredit t.ttype = true))).map
      Txn.amount).sum
  - ((st.txns.filter (fun t =>
      decide (t.userId = uid ∧ t.status = TxnStatus.completed ∧ isDebit t.ttype = true))).map
      Txn.amount).sum

/-- Operations whose request parameters the spec's validation layer would
admit: the deposit amount is non-negative (the handler itself never checks). -/
def GoodOp : Op → Prop
  | .deposit _ a _ => 0 ≤ a
  | _ => True

/-- The inductive invariant behind non-negativity: every balance is
non-negative and every scheduled settlement was solvent against its
request-time snapshot. -/
def Inv (st : St) : Prop :=
  (∀ u ∈ st.users, 0 ≤ u.balance) ∧ (∀ p ∈ st.pending, p.amount ≤ p.snapBalance)

/-! Concrete fixtures used by the witnesses and counterexamples. -/

def g100 : Game :=
  { id := 1, name := "G", kind := .wheel, price := 100, prizePool := 0,
    durationDays := 3, spinsPerDay := 1,
    prizes := [{ position := 1, amount := 100 }], active := true }

def g30 : Game :=
  { g100 with id := 2, price := 30 }

def exSt : St :=
  { users := [{ id := 7, balance := 100 }], games := [g100, g30],
    txns := [], tickets := [], pending := [], clock := 0 }

/-- Balance 100 via a deposit, then a withdrawal of 100 (left `pending`), then
a ticket purchase of price 100 that empties the balance before the
settlement fires. -/
def c1Trace : List Op :=
  [Op.deposit 7 100 "d1", Op.withdraw 7 100 "ph" "t1",
   Op.purchase 7 1 1 "p1" ["c1"] (fun _ => false)]

def c1State : St := runOps (initSt 7 [g100]) c1Trace

/-- Deposit 100, withdraw 100 (pending), deposit another 50, then the
settlement fires. -/
def c4Trace : List Op :=
  [Op.deposit 7 100 "d1", Op.withdraw 7 100 "ph" "t1",
   Op.deposit 7 50 "d2", Op.settle 0]

def c4State : St := runOps (initSt 7 []) c4Trace

def c3St : St :=
  { users := [{ id := 7, balance := 100 }], games := [g30],
    txns := [], tickets := [], pending := [], clock := 0 }

/-- Purchase of one price-30 ticket from balance 100 in which save number 1 —
the `transaction.save()` right after the debit — throws. -/
def c3Run : Except Ferr (List Ticket × Int) × St :=
  purchaseH c3St 7 2 1 "p1" ["c1"] (fun n => decide (n = 1))

def c6St : St :=
  { users := [{ id := 7, balance := 100 }], games := [{ g30 with active := false }],
    txns := [], tickets := [], pending := [], clock := 0 }

/-- Purchase of one ticket of an inactive game, all saves succeeding. -/
def c6Run : Except Ferr (List Ticket × Int) × St :=
  purchaseH c6St 7 2 1 "p1" ["c1"] (fun _ => false)

def c7Txn : Txn :=
  { userId := 7, ttype := .withdrawal, status := .pending, amount := 10,
    transactionId := "wd_abc", description := "Withdrawal to p", createdAt := 0 }

/-- A state whose transaction log already holds the id `wd_abc`. -/
def c7St : St :=
  { users := [{ id := 7, balance := 100 }], games := [], txns := [c7Txn],
    tickets := [], pending := [], clock := 1 }

def c10St : St :=
  { users := [{ id := 7, balance := 100 }], games := [{ g100 with prizes := [] }],
    txns := [], tickets := [], pending := [], clock := 0 }

/-- Deposit 100, request a withdrawal of 60 and let its settlement fire. -/
def c2Trace : List Op :=
  [Op.deposit 7 100 "d1", Op.withdraw 7 60 "ph" "t1", Op.settle 0]

/-! General lemmas about the model's helpers. -/

theorem findUser_mem {users : List Usr} {uid : Nat} {u : Usr}
    (h : findUser users uid = some u) : u ∈ users :=
  List.mem_of_find?_eq_some h

theorem findUser_id {users : List Usr} {uid : Nat} {u : Usr}
    (h : findUser users uid = some u) : u.id = uid := by
  simpa using List.find?_some h

theorem saveTxn_eq_some {st : St} {t : Txn} {st' : St} (h : saveTxn st t = some st') :
    st' = { st with txns := st.txns ++ [t], clock := st.clock + 1 } := by
  unfold saveTxn at h
  split at h
  · exact absurd h (by simp)
  · exact (Option.some.inj h).symm

theorem findUser_setBalance {users : List Usr} {uid : Nat} {u : Usr} (b : Int)
    (h : findUser users uid = some u) :
    findUser (setBalance users uid b) uid = some { u with balance := b } := by
  induction users with
  | nil => simp [findUser] at h
  | cons v vs ih =>
    by_cases hv : v.id = uid
    · rw [findUser, List.find?_cons_of_pos _ (by simp [hv])] at h
      cases h
      simp only [setBalance, List.map_cons, if_pos hv]
      rw [findUser, List.find?_cons_of_pos _ (by simp [hv])]
    · rw [findUser, List.find?_cons_of_neg _ (by simp [hv])] at h
      have hvs := ih h
      simp only [setBalance, List.map_cons, if_neg hv] at hvs ⊢
      rw [findUser, List.find?_cons_of_neg _ (by simp [hv])]
      exact hvs

theorem nonneg_setBalance {users : List Usr} {uid : Nat} {b : Int}
    (h : ∀ v ∈ users, 0 ≤ v.balance) (hb : 0 ≤ b) :
    ∀ u ∈ setBalance users uid b, 0 ≤ u.balance := by
  intro u hu
  simp only [setBalance] at hu
  rcases List.mem_map.mp hu with ⟨v, hv, rfl⟩
  by_cases hid : v.id = uid
  · simpa [hid] using hb
  · simpa [hid] using h v hv

/-- Claim C1: the deferred settlement is supposed to re-validate
balance ≥ amount and mark the transaction `failed` when the check fails.  In
`c1State` the user's balance at settlement time is 0 while the pending
withdrawal's amount is 100, yet running the settlement marks the withdrawal
transaction `completed`, not `failed`: the callback performs no re-check. -/
theorem C1_settlement_never_revalidates :
    balanceOf c1State 7 = 0 ∧
    c1State.pending.map PendingSettlement.amount = [100] ∧
    ((settleH c1State 0).txns.find?
        (fun t => decide (t.transactionId = "wd_t1"))).map Txn.status =
      some TxnStatus.completed ∧
    TxnStatus.completed ≠ TxnStatus.failed := by
  decide

/-- Claim C3: when the `transaction.save()` right after the debit throws, the
purchase surfaces the internal error with the balance still debited (70, not
the original 100), no transaction record and no tickets — there is no
compensating credit. -/
theorem C3_debit_without_rollback :
    c3Run.1 = .error .internalError ∧
    balanceOf c3Run.2 7 = 70 ∧
    balanceOf c3St 7 = 100 ∧
    c3Run.2.txns = [] ∧
    c3Run.2.tickets = [] := by
  decide

/-- Claim C4: after deposit 100, withdraw 100 (pending), deposit 50 and the
deferred settlement, the stored balance is 0 while the completed-transaction
ledger sums to 150 − 100 = 50: the settlement's stale `user.save()`
overwrites the interim deposit, so the claimed invariant fails on the code. -/
theorem C4_balance_ne_ledger :
    balanceOf c4State 7 = 0 ∧
    ledgerBalance c4State 7 = 50 ∧
    balanceOf c4State 7 ≠ ledgerBalance c4State 7 := by
  decide

/-- Claim C7: a record operation whose generated token collides with the
existing transaction id `wd_abc` fails the whole request with the internal
error and leaves the log unchanged: no new identifier is regenerated and the
write is not retried (the unique index does prevent an overwrite). -/
theorem C7_collision_fails_without_retry :
    withdrawH c7St 7 50 "ph" "abc" = (.error .internalError, c7St) := by
  decide

/-- Claim C6, counterexample: purchasing one ticket of an *inactive* game
succeeds — the handler answers `ok` with a minted ticket and the debited
balance 70, records a transaction and creates a ticket, instead of failing
with a validation error and performing no mutation. -/
theorem C6_inactive_purchase_succeeds :
    c6Run.1 = .ok ([{ userId := 7, gameId := 2, ticketCode := "Tc1", purchaseDate := 0,
                      drawDate := 3, status := .active, prizeWon := 0 }], 70) ∧
    balanceOf c6Run.2 7 = 70 ∧
    c6Run.2.txns.length = 1 ∧
    c6Run.2.tickets.length = 1 := by
  decide

/-- Claim C2, counterexample: the deposit handler performs no amount
validation, so the public Deposit operation with amount −1 reaches a state
whose balance is negative. -/
theorem C2_reachable_negative_balance :
    ¬ (∀ s : St, (∃ ops : List Op, runOps (initSt 7 []) ops = s) →
        ∀ u ∈ s.users, 0 ≤ u.balance) := by
  intro hall
  have h := hall (runOps (initSt 7 []) [Op.deposit 7 (-1) "d"]) ⟨_, rfl⟩
  have h2 := h { id := 7, balance := -1 } (by decide)
  exact absurd h2 (by decide)

/-- Claim C9: the transaction listing returns the state unchanged, at most 50
transactions, sorted newest first by creation time, and only transactions of
the requested user. -/
theorem C9_list_transactions (st : St) (uid : Nat) :
    (getTransactionsH st uid).2 = st ∧
    (getTransactionsH st uid).1.length ≤ 50 ∧
    List.Sorted txnNewerEq (getTransactionsH st uid).1 ∧
    ∀ t ∈ (getTransactionsH st uid).1, t.userId = uid := by
  refine ⟨rfl, List.length_take_le _ _, ?_, ?_⟩
  · exact (List.sorted_insertionSort txnNewerEq _).sublist (List.take_sublist _ _)
  · intro t ht
    have h2 := (List.take_sublist 50 _).subset ht
    have h3 := (List.perm_insertionSort txnNewerEq _).subset h2
    simpa using List.of_mem_filter h3

/-- Claim C10: the spin handler checks neither the game's kind nor its active
flag; on a game whose prize list is empty the drawn entry (index 0, since
`Math.floor(r * 0) = 0`) is absent, so the request fails with the generic
internal error and the state is unchanged. -/
theorem C10_spin_empty_prizes (st : St) (uid gid : Nat) (token : String)
    (u : Usr) (g : Game)
    (hu : findUser st.users uid = some u) (hg : findGame st.games gid = some g)
    (hp : g.prizes = []) :
    spinH st uid gid 0 token = (.error .internalError, st) := by
  simp [spinH, hu, hg, hp]

/-- Claim C10 witness: a concrete spin on an empty-prize game. -/
theorem C10_spin_empty_prizes_witness :
    spinH c10St 7 1 0 "w" = (.error .internalError, c10St) :=
  C10_spin_empty_prizes c10St 7 1 "w" { id := 7, balance := 100 }
    { g100 with prizes := [] } rfl rfl rfl

/-- Claim C5: when the drawn prize entry has positive amount (and the
generated transaction id is fresh), the spin credits the user by exactly that
amount, appends a `completed` `prize_won` transaction whose description names
the drawn position, and answers with the drawn position, amount and resulting
balance. -/
theorem C5_spin_credits_prize (st : St) (uid gid idx : Nat) (token : String)
    (u : Usr) (g : Game) (p : Prize)
    (hu : findUser st.users uid = some u) (hg : findGame st.games gid = some g)
    (hp : g.prizes[idx]? = some p) (hamt : 0 < p.amount)
    (hfresh : st.txns.any (fun t0 => decide (t0.transactionId = "win_" ++ token)) = false) :
    spinH st uid gid idx token =
      (.ok { prize := p.amount, position := p.position, balance := u.balance + p.amount },
       { st with users := setBalance st.users uid (u.balance + p.amount),
                 txns := st.txns ++
                   [{ userId := uid, ttype := .prizeWon, status := .completed,
                      amount := p.amount, transactionId := "win_" ++ token,
                      description := "Won prize from " ++ g.name ++
                        " (Position: " ++ toString p.position ++ ")",
                      createdAt := st.clock }],
                 clock := st.clock + 1 }) ∧
    balanceOf (spinH st uid gid idx token).2 uid = balanceOf st uid + p.amount := by
  have h1 : spinH st uid gid idx token =
      (.ok { prize := p.amount, position := p.position, balance := u.balance + p.amount },
       { st with users := setBalance st.users uid (u.balance + p.amount),
                 txns := st.txns ++
                   [{ userId := uid, ttype := .prizeWon, status := .completed,
                      amount := p.amount, transactionId := "win_" ++ token,
                      description := "Won prize from " ++ g.name ++
                        " (Position: " ++ toString p.position ++ ")",
                      createdAt := st.clock }],
                 clock := st.clock + 1 }) := by
    simp [spinH, hu, hg, hp, hamt, saveTxn, hfresh]
  refine ⟨h1, ?_⟩
  rw [h1]
  simp [balanceOf, hu, findUser_setBalance (u.balance + p.amount) hu]

/-- Claim C5 witness: a concrete spin that draws position 1 with amount 100
from balance 100. -/
theorem C5_spin_credits_prize_witness :
    (spinH exSt 7 1 0 "w").1 = .ok { prize := 100, position := 1, balance := 200 } := by
  have h := (C5_spin_credits_prize exSt 7 1 0 "w" { id := 7, balance := 100 } g100
    { position := 1, amount := 100 } rfl rfl rfl (by decide) (by decide)).1
  rw [h]
  decide

/-- Claim C8: a withdrawal request with balance below the amount fails with
the insufficient-balance error and changes nothing; otherwise (for a fresh
token) it appends only a `pending` withdrawal transaction, schedules — but
does not run — the settlement, leaves the balance untouched and answers the
transaction id immediately. -/
theorem C8_withdraw_request_check (st : St) (uid : Nat) (amount : Int)
    (phone token : String) (u : Usr)
    (hu : findUser st.users uid = some u)
    (hfresh : st.txns.any (fun t0 => decide (t0.transactionId = "wd_" ++ token)) = false) :
    (u.balance < amount →
       withdrawH st uid amount phone token = (.error .insufficientBalance, st)) ∧
    (amount ≤ u.balance →
       withdrawH st uid amount phone token =
         (.ok ("wd_" ++ token),
          { st with
              txns := st.txns ++
                [{ userId := uid, ttype := .withdrawal, status := .pending,
                   amount := amount, transactionId := "wd_" ++ token,
                   description := "Withdrawal to " ++ phone, createdAt := st.clock }],
              clock := st.clock + 1,
              pending := st.pending ++
                [{ userId := uid, amount := amount, snapBalance := u.balance,
                   txId := "wd_" ++ token, phone := phone }] })) := by
  constructor
  · intro hlt
    simp [withdrawH, hu, hlt]
  · intro hge
    have hnlt : ¬ (u.balance < amount) := not_lt.mpr hge
    simp [withdrawH, hu, hnlt, saveTxn, hfresh]

/-- Claim C8 witness: with balance 100, withdrawing 200 fails and changes
nothing; withdrawing 60 answers the transaction id at once. -/
theorem C8_withdraw_request_check_witness :
    (withdrawH exSt 7 200 "ph" "ta").2 = exSt ∧
    (withdrawH exSt 7 60 "ph" "tb").1 = .ok "wd_tb" := by
  have hfail := (C8_withdraw_request_check exSt 7 200 "ph" "ta"
    { id := 7, balance := 100 } rfl (by decide)).1 (by decide)
  have hok := (C8_withdraw_request_check exSt 7 60 "ph" "tb"
    { id := 7, balance := 100 } rfl (by decide)).2 (by decide)
  rw [hfail, hok]
  exact ⟨rfl, rfl⟩

/-- Claim C6, amended: the purchase handler validates neither the quantity
nor the game's active flag.  A call with quantity ≤ 0 (on any found game,
active or not) succeeds: it debits price × quantity, appends a `completed`
`game_purchase` transaction of that amount, creates no tickets, and answers
`ok` — there is no validation error. -/
theorem C6_purchase_skips_validation (st : St) (uid gid : Nat) (q : Int)
    (token : String) (codes : List String) (u : Usr) (g : Game)
    (hu : findUser st.users uid = some u) (hg : findGame st.games gid = some g)
    (hq : q ≤ 0) (hbal : g.price * q ≤ u.balance)
    (hfresh : st.txns.any (fun t0 => decide (t0.transactionId = "tick_" ++ token)) = false) :
    purchaseH st uid gid q token codes (fun _ => false) =
      (.ok ([], u.balance - g.price * q),
       { st with users := setBalance st.users uid (u.balance - g.price * q),
                 txns := st.txns ++
                   [{ userId := uid, ttype := .gamePurchase, status := .completed,
                      amount := g.price * q, transactionId := "tick_" ++ token,
                      description := "Purchased " ++ toString q ++
                        " ticket(s) for " ++ g.name,
                      createdAt := st.clock }],
                 clock := st.clock + 1 }) ∧
    (purchaseH st uid gid q token codes (fun _ => false)).2.tickets = st.tickets := by
  have hq0 : q.toNat = 0 := Int.toNat_of_nonpos hq
  have hnlt : ¬ (u.balance < g.price * q) := not_lt.mpr hbal
  have h1 : purchaseH st uid gid q token codes (fun _ => false) =
      (.ok ([], u.balance - g.price * q),
       { st with users := setBalance st.users uid (u.balance - g.price * q),
                 txns := st.txns ++
                   [{ userId := uid, ttype := .gamePurchase, status := .completed,
                      amount := g.price * q, transactionId := "tick_" ++ token,
                      description := "Purchased " ++ toString q ++
                        " ticket(s) for " ++ g.name,
                      createdAt := st.clock }],
                 clock := st.clock + 1 }) := by
    simp [purchaseH, hu, hg, hnlt, saveTxn, hfresh, hq0, mintLoop, List.drop_length]
  refine ⟨h1, ?_⟩
  rw [h1]

/-- Claim C6 witness: a quantity-0 purchase of an inactive game succeeds with
no tickets and an unchanged balance. -/
theorem C6_purchase_skips_validation_witness :
    (purchaseH c6St 7 2 0 "q" [] (fun _ => false)).1 = .ok ([], 100) ∧
    (purchaseH c6St 7 2 0 "q" [] (fun _ => false)).2.tickets = c6St.tickets := by
  have h := C6_purchase_skips_validation c6St 7 2 0 "q" [] { id := 7, balance := 100 }
    { g30 with active := false } rfl rfl (by decide) (by decide) (by decide)
  refine ⟨?_, h.2⟩
  rw [h.1]
  decide

/-! Preservation of `Inv` by every handler, leading to the amended claim C2. -/

theorem depositH_inv (st : St) (uid : Nat) (a : Int) (tid : String)
    (ha : 0 ≤ a) (h : Inv st) : Inv (depositH st uid a tid).2 := by
  unfold depositH
  dsimp only
  split
  · exact h
  · next u hu =>
    have hnn : ∀ v ∈ setBalance st.users uid (u.balance + a), 0 ≤ v.balance :=
      nonneg_setBalance h.1 (add_nonneg (h.1 u (findUser_mem hu)) ha)
    split
    · exact ⟨hnn, h.2⟩
    · next st2 hs =>
      rw [saveTxn_eq_some hs]
      exact ⟨hnn, h.2⟩

theorem withdrawH_inv (st : St) (uid : Nat) (a : Int) (ph tok : String)
    (h : Inv st) : Inv (withdrawH st uid a ph tok).2 := by
  unfold withdrawH
  dsimp only
  split
  · exact h
  · next u hu =>
    split
    · exact h
    · next hnlt =>
      split
      · exact h
      · next st1 hs =>
        rw [saveTxn_eq_some hs]
        refine ⟨h.1, ?_⟩
        intro p hp
        rcases List.mem_append.mp hp with hp | hp
        · exact h.2 p hp
        · rcases List.mem_singleton.mp hp with rfl
          exact not_lt.mp hnlt

theorem settleH_inv (st : St) (j : Nat) (h : Inv st) : Inv (settleH st j) := by
  unfold settleH
  dsimp only
  split
  · exact h
  · next p hp =>
    have hpm : p ∈ st.pending := by
      rcases List.getElem?_eq_some.mp hp with ⟨hlt, rfl⟩
      exact List.getElem_mem hlt
    refine ⟨nonneg_setBalance h.1 (sub_nonneg.mpr (h.2 p hpm)), ?_⟩
    intro q hq
    exact h.2 q ((List.eraseIdx_sublist _ _).subset hq)

theorem purchaseH_inv (st : St) (uid gid : Nat) (q : Int) (tok : String)
    (codes : List String) (f : Nat → Bool) (h : Inv st) :
    Inv (purchaseH st uid gid q tok codes f).2 := by
  unfold purchaseH
  dsimp only
  split
  · exact h
  · next u hu =>
    split
    · exact h
    · next g hg =>
      split
      · exact h
      · next hnlt =>
        have hnn : ∀ v ∈ setBalance st.users uid (u.balance - g.price * q), 0 ≤ v.balance :=
          nonneg_setBalance h.1 (sub_nonneg.mpr (not_lt.mp hnlt))
        split
        · exact h
        · next =>
          split
          · exact ⟨hnn, h.2⟩
          · next =>
            split
            · exact ⟨hnn, h.2⟩
            · next st2 hs =>
              split
              · rw [saveTxn_eq_some hs]
                exact ⟨hnn, h.2⟩
              · rw [saveTxn_eq_some hs]
                exact ⟨hnn, h.2⟩

theorem spinH_inv (st : St) (uid gid idx : Nat) (tok : String) (h : Inv st) :
    Inv (spinH st uid gid idx tok).2 := by
  unfold spinH
  dsimp only
  split
  · exact h
  · next u hu =>
    split
    · exact h
    · next g hg =>
      split
      · exact h
      · next p hp =>
        split
        · next hpos =>
          have hnn : ∀ v ∈ setBalance st.users uid (u.balance + p.amount), 0 ≤ v.balance :=
            nonneg_setBalance h.1 (add_nonneg (h.1 u (findUser_mem hu)) (le_of_lt hpos))
          split
          · exact ⟨hnn, h.2⟩
          · next st2 hs =>
            rw [saveTxn_eq_some hs]
            exact ⟨hnn, h.2⟩
        · exact h

theorem applyOp_inv (st : St) (op : Op) (hop : GoodOp op) (h : Inv st) :
    Inv (applyOp st op) := by
  cases op with
  | deposit uid a tid => exact depositH_inv st uid a tid hop h
  | withdraw uid a ph tok => exact withdrawH_inv st uid a ph tok h
  | settle j => exact settleH_inv st j h
  | purchase uid gid q tok codes f => exact purchaseH_inv st uid gid q tok codes f h
  | spin uid gid idx tok => exact spinH_inv st uid gid idx tok h

theorem runOps_inv (ops : List Op) :
    ∀ st : St, (∀ op ∈ ops, GoodOp op) → Inv st → Inv (runOps st ops) := by
  induction ops with
  | nil => intro st _ h; exact h
  | cons op ops ih =>
    intro st hops h
    have h1 := applyOp_inv st op (hops op (List.mem_cons_self op ops)) h
    have h2 := ih (applyOp st op) (fun o ho => hops o (List.mem_cons_of_mem op ho)) h1
    simpa [runOps] using h2

/-- Claim C2, amended: for every sequence of public operations in which each
Deposit amount is non-negative (the handler itself never validates this),
every user's balance stays non-negative in every reachable state.  All other
operations need no restriction: Withdraw checks the balance at request time,
Purchase checks it before debiting, Spin only credits positive prizes, and
the deferred settlement persists (request-time balance) − amount, which the
request-time check made non-negative. -/
theorem C2_balance_nonneg (uid0 : Nat) (games : List Game) (ops : List Op)
    (hops : ∀ op ∈ ops, GoodOp op) :
    ∀ u ∈ (runOps (initSt uid0 games) ops).users, 0 ≤ u.balance :=
  (runOps_inv ops (initSt uid0 games) hops
    ⟨by
      intro u hu
      rcases List.mem_singleton.mp hu with rfl
      exact le_refl 0,
     by
      intro p hp
      exact absurd hp (List.not_mem_nil p)⟩).1

/-- Claim C2 witness: after a deposit of 100, a withdrawal request of 60 and
its settlement, user 7's balance (40) is non-negative. -/
theorem C2_balance_nonneg_witness :
    0 ≤ balanceOf (runOps (initSt 7 [g100]) c2Trace) 7 := by
  have hops : ∀ op ∈ c2Trace, GoodOp op := by
    intro op hop
    simp only [c2Trace, List.mem_cons, List.mem_singleton, List.not_mem_nil, or_false] at hop
    rcases hop with rfl | rfl | rfl
    · show (0 : Int) ≤ 100
      decide
    · exact trivial
    · exact trivial
  have h := C2_balance_nonneg 7 [g100] c2Trace hops
  have hm : ({ id := 7, balance := 40 } : Usr) ∈ (runOps (initSt 7 [g100]) c2Trace).users := by
    decide
  exact h _ hm

end Jada
